import Mathlib

/-!
Shallow embedding of the three Icinga/Nagios AWS probes
(`check_aws_backups.py`, `check_aws_cloudwatch.py`, `check_aws_guardduty.py`).

Each probe runs a fetch → classify → decide → report pipeline and emits a
single output line plus an exit code.  Errors raised anywhere are converted
to an UNKNOWN verdict.  Machine-level details that no claim depends on
(logging, the exact Python `repr` of the counts dictionary inside the
human-readable message) are abstracted into explicit `result_text`
functions; everything that carries decision logic is translated directly
from the source.
-/

/-- A verdict level: the fixed exit code paired with its fixed label,
mirroring `_EXIT_OK = [0, 'OK']`, `_EXIT_WARNING = [1, 'WARNING']`,
`_EXIT_CRITICAL = [2, 'CRITICAL']`, `_EXIT_UNKNOWN = [3, 'UNKNOWN']`. -/
structure Status where
  code : Nat
  label : String
deriving DecidableEq

def EXIT_OK : Status := ⟨0, "OK"⟩
def EXIT_WARNING : Status := ⟨1, "WARNING"⟩
def EXIT_CRITICAL : Status := ⟨2, "CRITICAL"⟩
def EXIT_UNKNOWN : Status := ⟨3, "UNKNOWN"⟩

/-- `_print_result`: the single output line
`'{TAG} {status} - {info_text}'` (`sys.stdout.write` then `sys.exit`). -/
def printResultLine (tag : String) (st : Status) (msg : String) : String :=
  tag ++ " " ++ st.label ++ " - " ++ msg

/-- The output line contains the text `UNKNOWN`. -/
def containsUNKNOWN (s : String) : Prop :=
  ∃ a b, s = a ++ "UNKNOWN" ++ b

/-! ## Pagination (`while True: ... list_* ... NextToken` loops)

A `Page` is one API response: the records it carries and its optional
`NextToken` field (`none` models the key being absent from the response).
The fetch loops walk a finite chain of such pages; asking for a page
beyond the end of the chain is modelled as `none` (the loop issued a
request the chain does not answer). -/

structure Page (α : Type) where
  records : List α
  nextToken : Option String
deriving DecidableEq

/-- The guardduty loop's continue condition (line 154):
`'NextToken' in _response and _response['NextToken'] != ''`. -/
def tokContinues : Option String → Bool
  | some t => t ≠ ""
  | none => false

/-- The `_get_findings` pagination loop of `check_aws_guardduty.py`
(lines 149–157): extend the accumulated records with the page's records,
then continue only when a non-empty `NextToken` is present. -/
def fetch_pages_guardduty {α : Type} : List (Page α) → Option (List α)
  | [] => none
  | p :: rest =>
    if tokContinues p.nextToken then
      (fetch_pages_guardduty rest).map (p.records ++ ·)
    else
      some p.records

/-- The `_get_check_result` pagination loop of `check_aws_backups.py`
(lines 127–134): continue whenever the `NextToken` key is present,
regardless of its value (`if 'NextToken' in _response`). -/
def fetch_pages_backups {α : Type} : List (Page α) → Option (List α)
  | [] => none
  | p :: rest =>
    if p.nextToken.isSome then
      (fetch_pages_backups rest).map (p.records ++ ·)
    else
      some p.records

/-- Well-formed chain in the sense of the pagination claim: every page
carries a non-empty continuation token except the last, which either
omits the token or carries an empty-string token. -/
def wfChain {α : Type} : List (Page α) → Bool
  | [] => false
  | [p] => p.nextToken == none || p.nextToken == some ""
  | p :: q :: rest => tokContinues p.nextToken && wfChain (q :: rest)

/-- The last page of the chain omits the `NextToken` key entirely. -/
def lastOmitsToken {α : Type} (ps : List (Page α)) : Bool :=
  match ps.getLast? with
  | some p => p.nextToken == none
  | none => false

/-! ## GuardDuty probe (`check_aws_guardduty.py`) -/

namespace GuardDuty

/-- The arguments consumed by the analysis stage (period, warning,
critical; all `type=int`, defaults 48, 4, 7). -/
structure Args where
  period : Int
  warning : Int
  critical : Int
deriving DecidableEq

/-- One hydrated finding record, with the fields `_analyze_result` reads:
`Type`, `Severity` (a float, modelled as `Rat`), `Service.Archived`, and
the nested `Service.Action.NetworkConnectionAction.ConnectionDirection`
chain.  `connectionDirection = none` models any of those nested keys
being absent, in which case the Python lookup raises `KeyError`. -/
structure Finding where
  ftype : String
  severity : Rat
  archived : Bool
  connectionDirection : Option String
deriving DecidableEq

/-- `_ignore_finding` (lines 189–197): `Type` is compared first; only when
it equals the threat-list type is the nested `ConnectionDirection`
accessed (Python `and` short-circuits), and a missing nested key raises
`KeyError` — modelled as `Except.error`. -/
def ignore_finding (f : Finding) : Except String Bool :=
  if f.ftype = "UnauthorizedAccess:EC2/MaliciousIPCaller.Custom" then
    match f.connectionDirection with
    | none => .error "KeyError"
    | some d => .ok (d = "INBOUND")
  else
    .ok false

/-- The classification loop of `_analyze_result` (lines 210–219): skip
archived records, skip records `_ignore_finding` accepts, then test the
critical threshold before the warning threshold.  The accumulator is
`(Critical count, Warning count)`; an exception inside the loop aborts
the whole classification. -/
def classify (warning critical : Int) : Nat × Nat → List Finding → Except String (Nat × Nat)
  | acc, [] => .ok acc
  | acc, f :: rest =>
    if f.archived then
      classify warning critical acc rest
    else
      match ignore_finding f with
      | .error e => .error e
      | .ok true => classify warning critical acc rest
      | .ok false =>
        if f.severity > (critical : Rat) then
          classify warning critical (acc.1 + 1, acc.2) rest
        else if f.severity > (warning : Rat) then
          classify warning critical (acc.1, acc.2 + 1) rest
        else
          classify warning critical acc rest

/-- The verdict selection of `_analyze_result` (lines 222–227). -/
def verdict_from_counts (criticalCount warningCount : Nat) : Status :=
  if criticalCount > 0 then EXIT_CRITICAL
  else if warningCount > 0 then EXIT_WARNING
  else EXIT_OK

/-- The `_result_txt` of `_analyze_result` (line 221): renders the counts
dictionary and the period.  The exact Python `repr` of the dictionary is
abstracted; only the data it depends on matters here. -/
def result_text (args : Args) (criticalCount warningCount : Nat) : String :=
  "Critical: " ++ toString criticalCount ++ " Warning: " ++ toString warningCount
    ++ " in last " ++ toString args.period ++ " hours"

/-- `_analyze_result` (lines 188–227): classify, then pick the verdict and
the message. -/
def analyze_result (args : Args) (findings : List Finding) : Except String (Status × String) :=
  (classify args.warning args.critical (0, 0) findings).map fun cw =>
    (verdict_from_counts cw.1 cw.2, result_text args cw.1 cw.2)

/-- The run pipeline of `check_aws_guardduty.py` with the outcome of each
effectful stage injected.  `_get_args`, `_get_aws_client` and
`_get_check_result` each catch their own exceptions and print an UNKNOWN
result (lines 87–89, 106–108, 173–175); an exception escaping
`_analyze_result` is caught by the `__main__` handler (lines 243–249).
The tag written by `_print_result` is the literal `'AWS-BACKUP'`
(line 179).  The result is (exit code, stdout line). -/
def run (argsR : Except String Args) (clientR : Except String Unit)
    (fetchR : Except String (List Finding)) : Nat × String :=
  match argsR with
  | .error _ =>
    (EXIT_UNKNOWN.code, printResultLine "AWS-BACKUP" EXIT_UNKNOWN "Unknown error parsing arguments")
  | .ok args =>
    match clientR with
    | .error _ =>
      (EXIT_UNKNOWN.code, printResultLine "AWS-BACKUP" EXIT_UNKNOWN "Unknown error getting AWS client")
    | .ok _ =>
      match fetchR with
      | .error _ =>
        (EXIT_UNKNOWN.code, printResultLine "AWS-BACKUP" EXIT_UNKNOWN "Unknown error getting findings")
      | .ok findings =>
        match analyze_result args findings with
        | .error _ =>
          (EXIT_UNKNOWN.code, printResultLine "AWS-BACKUP" EXIT_UNKNOWN "Unknown error in main")
        | .ok res =>
          (res.1.code, printResultLine "AWS-BACKUP" res.1 res.2)

end GuardDuty

/-! ## Backups probe (`check_aws_backups.py`) -/

namespace Backups

/-- The arguments consumed by the analysis stage (period, warning,
critical; all `type=int`, defaults 24, 0, 0). -/
structure Args where
  period : Int
  warning : Int
  critical : Int
deriving DecidableEq

/-- A backup-job record, reduced to the only field `_analyze_result`
reads: its `State` string. -/
abbrev JobState := String

/-- The `_result_txt` of `_analyze_result` (line 160): renders the counts
dictionary and the period.  The exact Python `repr` of the dictionary is
abstracted; only the data it depends on matters here. -/
def result_text (args : Args) (jobs : List JobState) : String :=
  toString (jobs.count "FAILED") ++ " FAILED in last " ++ toString args.period ++ " hours"

/-- `_analyze_result` (lines 151–166): count the jobs per state, then
`'FAILED' in _result_counts and _result_counts['FAILED'] > threshold`,
critical checked before warning.  The key `'FAILED'` is present in the
counts dictionary exactly when some job has that state, and its value is
the number of such jobs (`List.count`). -/
def analyze_result (args : Args) (jobs : List JobState) : Status × String :=
  let txt := result_text args jobs
  if "FAILED" ∈ jobs ∧ (jobs.count "FAILED" : Int) > args.critical then
    (EXIT_CRITICAL, txt)
  else if "FAILED" ∈ jobs ∧ (jobs.count "FAILED" : Int) > args.warning then
    (EXIT_WARNING, txt)
  else
    (EXIT_OK, txt)

/-- The run pipeline of `check_aws_backups.py` with each effectful stage's
outcome injected; error handling as in the source (lines 88–90, 107–109,
136–138, 186–188), tag `'AWS-BACKUP'` (line 142). -/
def run (argsR : Except String Args) (clientR : Except String Unit)
    (fetchR : Except String (List JobState)) : Nat × String :=
  match argsR with
  | .error _ =>
    (EXIT_UNKNOWN.code, printResultLine "AWS-BACKUP" EXIT_UNKNOWN "Unknown error parsing arguments")
  | .ok args =>
    match clientR with
    | .error _ =>
      (EXIT_UNKNOWN.code, printResultLine "AWS-BACKUP" EXIT_UNKNOWN "Unknown error getting AWS client")
    | .ok _ =>
      match fetchR with
      | .error _ =>
        (EXIT_UNKNOWN.code, printResultLine "AWS-BACKUP" EXIT_UNKNOWN "Unknown error getting backup job list")
      | .ok jobs =>
        let res := analyze_result args jobs
        (res.1.code, printResultLine "AWS-BACKUP" res.1 res.2)

end Backups

/-! ## CloudWatch probe (`check_aws_cloudwatch.py`) -/

namespace CloudWatch

/-- The six comparator names accepted by the `-C` option (argparse
`choices=['gt', 'ge', 'lt', 'le', 'eq', 'ne']`), resolved through
`getattr(operator, _args.comparator)`. -/
inductive Cmp
  | gt | ge | lt | le | eq | ne
deriving DecidableEq

/-- The Python `operator` functions the comparator names resolve to,
applied to the observed value and a threshold. -/
def Cmp.apply : Cmp → Rat → Rat → Bool
  | .gt, a, b => a > b
  | .ge, a, b => a ≥ b
  | .lt, a, b => a < b
  | .le, a, b => a ≤ b
  | .eq, a, b => a = b
  | .ne, a, b => a ≠ b

/-- The arguments consumed by the analysis stage: the metric and statistic
names, the float thresholds (modelled as `Rat`) and the comparator. -/
structure Args where
  metric : String
  warning : Rat
  critical : Rat
  comparator : Cmp
deriving DecidableEq

/-- One CloudWatch datapoint, reduced to the fields `_analyze_result`
reads: the value under the requested statistic key, and `Unit`. -/
structure Datapoint where
  value : Rat
  unit : String
deriving DecidableEq

/-- The `_result_txt` of `_analyze_result` (line 157):
`'{metric}: {metric_value} {metric_unit} '`. -/
def result_text (args : Args) (d : Datapoint) : String :=
  args.metric ++ ": " ++ toString d.value ++ " " ++ d.unit ++ " "

/-- `_analyze_result` (lines 155–164): reads `_check_result[0]`, which
raises `IndexError` when the datapoint list is empty; otherwise applies
the comparator against the critical threshold first, then the warning
threshold. -/
def analyze_result (args : Args) : List Datapoint → Except String (Status × String)
  | [] => .error "IndexError"
  | d :: _ =>
    let txt := result_text args d
    if args.comparator.apply d.value args.critical then
      .ok (EXIT_CRITICAL, txt)
    else if args.comparator.apply d.value args.warning then
      .ok (EXIT_WARNING, txt)
    else
      .ok (EXIT_OK, txt)

/-- The run pipeline of `check_aws_cloudwatch.py` with each effectful
stage's outcome injected; error handling as in the source (lines 91–93,
110–112, 140–142, 184–186), tag `'CLOUDWATCH'` (line 146). -/
def run (argsR : Except String Args) (clientR : Except String Unit)
    (fetchR : Except String (List Datapoint)) : Nat × String :=
  match argsR with
  | .error _ =>
    (EXIT_UNKNOWN.code, printResultLine "CLOUDWATCH" EXIT_UNKNOWN "Unknown error parsing arguments")
  | .ok args =>
    match clientR with
    | .error _ =>
      (EXIT_UNKNOWN.code, printResultLine "CLOUDWATCH" EXIT_UNKNOWN "Unknown error getting AWS client")
    | .ok _ =>
      match fetchR with
      | .error _ =>
        (EXIT_UNKNOWN.code, printResultLine "CLOUDWATCH" EXIT_UNKNOWN "Unknown error getting cloudwatch metric")
      | .ok dps =>
        match analyze_result args dps with
        | .error _ =>
          (EXIT_UNKNOWN.code, printResultLine "CLOUDWATCH" EXIT_UNKNOWN "Unknown error in main")
        | .ok res =>
          (res.1.code, printResultLine "CLOUDWATCH" res.1 res.2)

end CloudWatch

/-! ## Theorems -/

/-- **C1.** For the severity-banded (guardduty) probe, for every
non-negative Critical count `c` and Warning count `w`, the verdict is
CRITICAL whenever `c > 0` regardless of `w`; it is WARNING exactly when
`c = 0` and `w > 0`; and it is OK exactly when `c = 0` and `w = 0`. -/
theorem guardduty_verdict_ordering (c w : Nat) :
    (0 < c → GuardDuty.verdict_from_counts c w = EXIT_CRITICAL) ∧
    (GuardDuty.verdict_from_counts c w = EXIT_WARNING ↔ c = 0 ∧ 0 < w) ∧
    (GuardDuty.verdict_from_counts c w = EXIT_OK ↔ c = 0 ∧ w = 0) := by
  unfold GuardDuty.verdict_from_counts
  rcases Nat.eq_zero_or_pos c with hc | hc
  · rcases Nat.eq_zero_or_pos w with hw | hw
    · subst hc hw
      simp [EXIT_OK, EXIT_WARNING, EXIT_CRITICAL]
    · subst hc
      simp [EXIT_OK, EXIT_WARNING, EXIT_CRITICAL, hw, Nat.pos_iff_ne_zero.mp hw]
  · simp [EXIT_OK, EXIT_WARNING, EXIT_CRITICAL, hc, Nat.pos_iff_ne_zero.mp hc, Status.mk.injEq]

/-- Witness for `guardduty_verdict_ordering` at `c = 2`, `w = 5`. -/
theorem guardduty_verdict_ordering_witness :
    GuardDuty.verdict_from_counts 2 5 = EXIT_CRITICAL :=
  (guardduty_verdict_ordering 2 5).1 (by decide)

/-- **C4, counterexample.** The claim quantifies over *every* configured
threshold `t`, but with critical threshold `-1` (the option is a plain
Python int) a FAILED count of `t + 1 = 0` does not escalate: with no
FAILED job the key `'FAILED'` is absent from the counts dictionary and
the verdict is OK, not CRITICAL. -/
theorem backups_threshold_cex :
    ((Backups.analyze_result ⟨24, -1, -1⟩ []).1 = EXIT_OK ∧ EXIT_OK ≠ EXIT_CRITICAL) ∧
    ((0 : Int) = -1 + 1) := by
  refine ⟨⟨?_, by decide⟩, by decide⟩
  rfl

/-- **C4, amended.** For the count-by-state (backups) probe, threshold
comparison is strict greater-than: for every *non-negative* configured
threshold, a FAILED count exactly equal to the threshold never escalates
the verdict by that rule, and a count of threshold + 1 always does,
critical checked before warning. -/
theorem backups_threshold_strict (args : Backups.Args) (jobs : List Backups.JobState) :
    ((jobs.count "FAILED" : Int) = args.critical →
      (Backups.analyze_result args jobs).1 ≠ EXIT_CRITICAL) ∧
    (0 ≤ args.critical → (jobs.count "FAILED" : Int) = args.critical + 1 →
      (Backups.analyze_result args jobs).1 = EXIT_CRITICAL) ∧
    ((jobs.count "FAILED" : Int) = args.warning →
      (Backups.analyze_result args jobs).1 ≠ EXIT_WARNING) ∧
    (0 ≤ args.warning → (jobs.count "FAILED" : Int) = args.warning + 1 →
      (Backups.analyze_result args jobs).1 ≠ EXIT_OK) := by
  have hmem : "FAILED" ∈ jobs ↔ 0 < jobs.count "FAILED" := List.count_pos_iff.symm
  refine ⟨?_, ?_, ?_, ?_⟩
  · intro heq
    unfold Backups.analyze_result
    split_ifs with h1 h2
    · exact absurd h1.2 (by omega)
    · exact (by decide : EXIT_WARNING ≠ EXIT_CRITICAL)
    · exact (by decide : EXIT_OK ≠ EXIT_CRITICAL)
  · intro hc hcnt
    have hpos : 0 < jobs.count "FAILED" := by omega
    unfold Backups.analyze_result
    split_ifs with h1 h2
    · rfl
    · exact absurd ⟨hmem.mpr hpos, by omega⟩ h1
    · exact absurd ⟨hmem.mpr hpos, by omega⟩ h1
  · intro heq
    unfold Backups.analyze_result
    split_ifs with h1 h2
    · exact (by decide : EXIT_CRITICAL ≠ EXIT_WARNING)
    · exact absurd h2.2 (by omega)
    · exact (by decide : EXIT_OK ≠ EXIT_WARNING)
  · intro hw hcnt
    have hpos : 0 < jobs.count "FAILED" := by omega
    unfold Backups.analyze_result
    split_ifs with h1 h2
    · exact (by decide : EXIT_CRITICAL ≠ EXIT_OK)
    · exact (by decide : EXIT_WARNING ≠ EXIT_OK)
    · exact absurd ⟨hmem.mpr hpos, by omega⟩ h2

/-- Witness for `backups_threshold_strict`: thresholds warning 0,
critical 2, three FAILED jobs (count 3 = critical + 1 → CRITICAL). -/
theorem backups_threshold_strict_witness :
    (Backups.analyze_result ⟨24, 0, 2⟩ ["FAILED", "FAILED", "FAILED"]).1 = EXIT_CRITICAL :=
  (backups_threshold_strict ⟨24, 0, 2⟩ ["FAILED", "FAILED", "FAILED"]).2.1
    (by decide) (by decide)

/-- One unfolding step of the guardduty pagination loop. -/
theorem fetch_guard_cons {α : Type} (p : Page α) (rest : List (Page α)) :
    fetch_pages_guardduty (p :: rest) =
      if tokContinues p.nextToken then
        (fetch_pages_guardduty rest).map (p.records ++ ·)
      else
        some p.records := rfl

/-- One unfolding step of the backups pagination loop. -/
theorem fetch_backups_cons {α : Type} (p : Page α) (rest : List (Page α)) :
    fetch_pages_backups (p :: rest) =
      if p.nextToken.isSome then
        (fetch_pages_backups rest).map (p.records ++ ·)
      else
        some p.records := rfl

/-- On a well-formed chain the guardduty pagination loop terminates with
the concatenation of all pages' records, for both terminal forms. -/
theorem fetch_guard_of_wf {α : Type} :
    ∀ ps : List (Page α), wfChain ps = true →
      fetch_pages_guardduty ps = some (ps.map Page.records).flatten
  | [], h => by simp [wfChain] at h
  | [p], h => by
    rcases ho : p.nextToken with _ | t
    · simp [fetch_pages_guardduty, tokContinues, ho]
    · unfold wfChain at h
      simp [ho] at h
      subst h
      simp [fetch_pages_guardduty, tokContinues, ho]
  | p :: q :: rest, h => by
    unfold wfChain at h
    rw [Bool.and_eq_true] at h
    have ih := fetch_guard_of_wf (q :: rest) h.2
    rw [fetch_guard_cons, if_pos h.1, ih]
    simp

/-- On a well-formed chain whose last page omits the token entirely, the
backups pagination loop also returns the concatenation of all pages. -/
theorem fetch_backups_of_wf {α : Type} :
    ∀ ps : List (Page α), wfChain ps = true → lastOmitsToken ps = true →
      fetch_pages_backups ps = some (ps.map Page.records).flatten
  | [], h, _ => by simp [wfChain] at h
  | [p], _, hl => by
    unfold lastOmitsToken at hl
    simp at hl
    simp [fetch_pages_backups, hl]
  | p :: q :: rest, h, hl => by
    unfold wfChain at h
    rw [Bool.and_eq_true] at h
    have hsome : p.nextToken.isSome = true := by
      rcases ho : p.nextToken with _ | t
      · rw [ho] at h
        simp [tokContinues] at h
      · simp
    have hl' : lastOmitsToken (q :: rest) = true := by
      unfold lastOmitsToken at hl ⊢
      rwa [List.getLast?_cons_cons] at hl
    have ih := fetch_backups_of_wf (q :: rest) h.2 hl'
    rw [fetch_backups_cons, if_pos hsome, ih]
    simp

/-- **C3, counterexample.**  A one-page chain whose (last) page carries an
empty-string token is a well-formed terminal chain, and the guardduty
loop returns its records; but the backups loop (`if 'NextToken' in
_response`) treats the empty-string token as a continuation and issues a
further request past the end of the chain instead of returning the
records — the two terminal forms are *not* handled identically there. -/
theorem pagination_empty_token_cex :
    fetch_pages_backups [Page.mk ["job1"] (some "")] = none ∧
    fetch_pages_backups [Page.mk ["job1"] none] = some ["job1"] ∧
    fetch_pages_guardduty [Page.mk ["job1"] (some "")] = some ["job1"] ∧
    wfChain [Page.mk (["job1"] : List String) (some "")] = true :=
  ⟨rfl, rfl, rfl, by decide⟩

/-- **C3, amended.** For every finite chain of pages in which each page
carries a non-empty continuation token except the last, the guardduty
fetch loop terminates and returns the concatenation of all pages'
records exactly once each, in page order, handling the absent-token and
empty-string-token terminal forms identically; the backups fetch loop
does the same only when the last page omits the token (an empty-string
terminal token makes it request a further page instead). -/
theorem pagination_termination (ps : List (Page String)) (hwf : wfChain ps = true) :
    fetch_pages_guardduty ps = some (ps.map Page.records).flatten ∧
    (lastOmitsToken ps = true →
      fetch_pages_backups ps = some (ps.map Page.records).flatten) :=
  ⟨fetch_guard_of_wf ps hwf, fun hl => fetch_backups_of_wf ps hwf hl⟩

/-- Witness for `pagination_termination`: a two-page chain joined in page
order by both loops. -/
theorem pagination_termination_witness :
    fetch_pages_guardduty [Page.mk ["a"] (some "tok"), Page.mk ["b"] none]
        = some ["a", "b"] ∧
    fetch_pages_backups [Page.mk ["a"] (some "tok"), Page.mk ["b"] none]
        = some ["a", "b"] := by
  have h := pagination_termination [Page.mk ["a"] (some "tok"), Page.mk ["b"] none] (by decide)
  exact ⟨h.1, h.2 (by decide)⟩

/-- One unfolding step of the guardduty classification loop. -/
theorem classify_cons (warning critical : Int) (acc : Nat × Nat)
    (f : GuardDuty.Finding) (rest : List GuardDuty.Finding) :
    GuardDuty.classify warning critical acc (f :: rest) =
      if f.archived then
        GuardDuty.classify warning critical acc rest
      else
        match GuardDuty.ignore_finding f with
        | .error e => .error e
        | .ok true => GuardDuty.classify warning critical acc rest
        | .ok false =>
          if f.severity > (critical : Rat) then
            GuardDuty.classify warning critical (acc.1 + 1, acc.2) rest
          else if f.severity > (warning : Rat) then
            GuardDuty.classify warning critical (acc.1, acc.2 + 1) rest
          else
            GuardDuty.classify warning critical acc rest := rfl

/-- **C5.** In severity-banded classification, every non-excluded record
is tested against the critical threshold first: severity strictly
greater than critical increments only the Critical bucket; otherwise
severity strictly greater than warning increments only the Warning
bucket; otherwise the record increments neither.  A record is never
counted in both buckets, and a record above critical never lands in the
Warning bucket (the exclusive increments make both visible). -/
theorem guardduty_band_order (warning critical : Int) (f : GuardDuty.Finding)
    (acc : Nat × Nat) (rest : List GuardDuty.Finding)
    (harch : f.archived = false)
    (hig : GuardDuty.ignore_finding f = .ok false) :
    (f.severity > (critical : Rat) →
      GuardDuty.classify warning critical acc (f :: rest)
        = GuardDuty.classify warning critical (acc.1 + 1, acc.2) rest) ∧
    (¬ f.severity > (critical : Rat) → f.severity > (warning : Rat) →
      GuardDuty.classify warning critical acc (f :: rest)
        = GuardDuty.classify warning critical (acc.1, acc.2 + 1) rest) ∧
    (¬ f.severity > (critical : Rat) → ¬ f.severity > (warning : Rat) →
      GuardDuty.classify warning critical acc (f :: rest)
        = GuardDuty.classify warning critical acc rest) := by
  refine ⟨?_, ?_, ?_⟩
  · intro h1
    rw [classify_cons]
    simp [harch, hig, h1]
  · intro h1 h2
    rw [classify_cons]
    simp [harch, hig, h1, h2]
  · intro h1 h2
    rw [classify_cons]
    simp [harch, hig, h1, h2]

/-- Witness for `guardduty_band_order`: a non-archived, non-ignored
finding of severity 9 against critical 7 goes to the Critical bucket. -/
theorem guardduty_band_order_witness :
    GuardDuty.classify 4 7 (0, 0) [GuardDuty.Finding.mk "Recon:EC2/PortProbe" 9 false none]
      = GuardDuty.classify 4 7 (1, 0) [] :=
  (guardduty_band_order 4 7 (GuardDuty.Finding.mk "Recon:EC2/PortProbe" 9 false none)
    (0, 0) [] rfl rfl).1 (by norm_num)

/-- Removing a record the classifier excludes (archived, or accepted by
`_ignore_finding`) from anywhere in the input leaves the classification
unchanged. -/
theorem classify_skip_excluded (w c : Int) (f : GuardDuty.Finding)
    (hex : f.archived = true ∨ GuardDuty.ignore_finding f = .ok true) :
    ∀ (l1 : List GuardDuty.Finding) (acc : Nat × Nat) (l2 : List GuardDuty.Finding),
      GuardDuty.classify w c acc (l1 ++ f :: l2) = GuardDuty.classify w c acc (l1 ++ l2)
  | [], acc, l2 => by
    simp only [List.nil_append]
    rw [classify_cons]
    rcases hex with ha | hi
    · simp [ha]
    · cases harch : f.archived
      · simp [harch, hi]
      · simp [harch]
  | g :: t, acc, l2 => by
    have ih : ∀ a : Nat × Nat,
        GuardDuty.classify w c a (t ++ f :: l2) = GuardDuty.classify w c a (t ++ l2) :=
      fun a => classify_skip_excluded w c f hex t a l2
    simp only [List.cons_append, classify_cons, ih]

/-- **C6.** A record whose archived flag is set, or that matches the
noise-filter predicate, leaves every bucket count unchanged, and the
analysis result (verdict and message) is the same as if the record were
absent from the input. -/
theorem guardduty_excluded_no_effect (f : GuardDuty.Finding)
    (hex : f.archived = true ∨ GuardDuty.ignore_finding f = .ok true)
    (args : GuardDuty.Args) (l1 l2 : List GuardDuty.Finding) :
    (∀ acc : Nat × Nat,
      GuardDuty.classify args.warning args.critical acc (l1 ++ f :: l2)
        = GuardDuty.classify args.warning args.critical acc (l1 ++ l2)) ∧
    GuardDuty.analyze_result args (l1 ++ f :: l2)
      = GuardDuty.analyze_result args (l1 ++ l2) := by
  have h := fun acc => classify_skip_excluded args.warning args.critical f hex l1 acc l2
  refine ⟨h, ?_⟩
  unfold GuardDuty.analyze_result
  rw [h]

/-- Witness for `guardduty_excluded_no_effect`: an archived severity-9
finding is classified exactly like the empty input. -/
theorem guardduty_excluded_no_effect_witness :
    GuardDuty.analyze_result ⟨48, 4, 7⟩ [GuardDuty.Finding.mk "Recon:EC2/PortProbe" 9 true none]
      = GuardDuty.analyze_result ⟨48, 4, 7⟩ [] :=
  (guardduty_excluded_no_effect (GuardDuty.Finding.mk "Recon:EC2/PortProbe" 9 true none)
    (Or.inl rfl) ⟨48, 4, 7⟩ [] []).2

/-- One unfolding step of the cloudwatch analysis on a non-empty
datapoint list. -/
theorem cloudwatch_analyze_cons (args : CloudWatch.Args) (d : CloudWatch.Datapoint)
    (rest : List CloudWatch.Datapoint) :
    CloudWatch.analyze_result args (d :: rest) =
      if args.comparator.apply d.value args.critical then
        .ok (EXIT_CRITICAL, CloudWatch.result_text args d)
      else if args.comparator.apply d.value args.warning then
        .ok (EXIT_WARNING, CloudWatch.result_text args d)
      else
        .ok (EXIT_OK, CloudWatch.result_text args d) := rfl

/-- **C7.** In scalar-metric mode, the verdict is CRITICAL if the
configured comparator holds of (observed, critical); else WARNING if it
holds of (observed, warning); else OK — and observed 85.0 with
warning 80.0, critical 90.0, comparator `ge` yields WARNING with exit
code 1. -/
theorem cloudwatch_scalar_mode (args : CloudWatch.Args) (d : CloudWatch.Datapoint)
    (rest : List CloudWatch.Datapoint) :
    (args.comparator.apply d.value args.critical = true →
      CloudWatch.analyze_result args (d :: rest)
        = .ok (EXIT_CRITICAL, CloudWatch.result_text args d)) ∧
    (args.comparator.apply d.value args.critical = false →
      args.comparator.apply d.value args.warning = true →
      CloudWatch.analyze_result args (d :: rest)
        = .ok (EXIT_WARNING, CloudWatch.result_text args d)) ∧
    (args.comparator.apply d.value args.critical = false →
      args.comparator.apply d.value args.warning = false →
      CloudWatch.analyze_result args (d :: rest)
        = .ok (EXIT_OK, CloudWatch.result_text args d)) ∧
    (CloudWatch.analyze_result ⟨"m", 80, 90, CloudWatch.Cmp.ge⟩ [⟨85, "Percent"⟩]
        = .ok (EXIT_WARNING,
            CloudWatch.result_text ⟨"m", 80, 90, CloudWatch.Cmp.ge⟩ ⟨85, "Percent"⟩) ∧
      EXIT_WARNING.code = 1) := by
  refine ⟨?_, ?_, ?_, ?_, rfl⟩
  · intro h1
    rw [cloudwatch_analyze_cons]
    simp [h1]
  · intro h1 h2
    rw [cloudwatch_analyze_cons]
    simp [h1, h2]
  · intro h1 h2
    rw [cloudwatch_analyze_cons]
    simp [h1, h2]
  · rw [cloudwatch_analyze_cons]
    norm_num [CloudWatch.Cmp.apply]

/-- Witness for `cloudwatch_scalar_mode`: observed 95 with critical 90
under `ge` yields CRITICAL. -/
theorem cloudwatch_scalar_mode_witness :
    CloudWatch.analyze_result ⟨"m", 80, 90, CloudWatch.Cmp.ge⟩ [⟨95, "Percent"⟩]
      = .ok (EXIT_CRITICAL,
          CloudWatch.result_text ⟨"m", 80, 90, CloudWatch.Cmp.ge⟩ ⟨95, "Percent"⟩) :=
  (cloudwatch_scalar_mode ⟨"m", 80, 90, CloudWatch.Cmp.ge⟩ ⟨95, "Percent"⟩ []).1
    (by norm_num [CloudWatch.Cmp.apply])

/-- Any line printed with the UNKNOWN status contains the text
`UNKNOWN`. -/
theorem printResultLine_unknown (tag msg : String) :
    containsUNKNOWN (printResultLine tag EXIT_UNKNOWN msg) :=
  ⟨tag ++ " ", " - " ++ msg, by
    simp only [printResultLine, EXIT_UNKNOWN, String.append_assoc]⟩

/-- The guardduty run on successful stages reduces to the analysis
dispatch. -/
theorem guard_run_ok (a : GuardDuty.Args) (l : List GuardDuty.Finding) :
    GuardDuty.run (.ok a) (.ok ()) (.ok l) =
      match GuardDuty.analyze_result a l with
      | .error _ =>
        (EXIT_UNKNOWN.code, printResultLine "AWS-BACKUP" EXIT_UNKNOWN "Unknown error in main")
      | .ok res => (res.1.code, printResultLine "AWS-BACKUP" res.1 res.2) := rfl

/-- The cloudwatch run on successful stages reduces to the analysis
dispatch. -/
theorem cloudwatch_run_ok (a : CloudWatch.Args) (l : List CloudWatch.Datapoint) :
    CloudWatch.run (.ok a) (.ok ()) (.ok l) =
      match CloudWatch.analyze_result a l with
      | .error _ =>
        (EXIT_UNKNOWN.code, printResultLine "CLOUDWATCH" EXIT_UNKNOWN "Unknown error in main")
      | .ok res => (res.1.code, printResultLine "CLOUDWATCH" res.1 res.2) := rfl

/-- **C2.** For every run of every probe, an error raised at any stage
(argument parsing, client construction, fetch, or classification) is
converted into exactly one UNKNOWN verdict: the output line contains
`UNKNOWN` and the exit code is 3. -/
theorem error_to_unknown :
    (∀ (argsR : Except String GuardDuty.Args) (clientR : Except String Unit)
        (fetchR : Except String (List GuardDuty.Finding)),
      ((∃ e, argsR = Except.error e) ∨ (∃ e, clientR = Except.error e) ∨
        (∃ e, fetchR = Except.error e) ∨
        (∃ a l e, argsR = Except.ok a ∧ fetchR = Except.ok l ∧
          GuardDuty.analyze_result a l = Except.error e)) →
      (GuardDuty.run argsR clientR fetchR).1 = 3 ∧
        containsUNKNOWN (GuardDuty.run argsR clientR fetchR).2) ∧
    (∀ (argsR : Except String Backups.Args) (clientR : Except String Unit)
        (fetchR : Except String (List Backups.JobState)),
      ((∃ e, argsR = Except.error e) ∨ (∃ e, clientR = Except.error e) ∨
        (∃ e, fetchR = Except.error e)) →
      (Backups.run argsR clientR fetchR).1 = 3 ∧
        containsUNKNOWN (Backups.run argsR clientR fetchR).2) ∧
    (∀ (argsR : Except String CloudWatch.Args) (clientR : Except String Unit)
        (fetchR : Except String (List CloudWatch.Datapoint)),
      ((∃ e, argsR = Except.error e) ∨ (∃ e, clientR = Except.error e) ∨
        (∃ e, fetchR = Except.error e) ∨
        (∃ a l e, argsR = Except.ok a ∧ fetchR = Except.ok l ∧
          CloudWatch.analyze_result a l = Except.error e)) →
      (CloudWatch.run argsR clientR fetchR).1 = 3 ∧
        containsUNKNOWN (CloudWatch.run argsR clientR fetchR).2) := by
  refine ⟨?_, ?_, ?_⟩
  · intro argsR clientR fetchR h
    rcases h with ⟨e, he⟩ | ⟨e, he⟩ | ⟨e, he⟩ | ⟨a, l, e, ha, hl, he⟩
    · subst he
      exact ⟨rfl, printResultLine_unknown _ _⟩
    · subst he
      rcases argsR with e' | a
      · exact ⟨rfl, printResultLine_unknown _ _⟩
      · exact ⟨rfl, printResultLine_unknown _ _⟩
    · subst he
      rcases argsR with e' | a
      · exact ⟨rfl, printResultLine_unknown _ _⟩
      · rcases clientR with e'' | ⟨⟩
        · exact ⟨rfl, printResultLine_unknown _ _⟩
        · exact ⟨rfl, printResultLine_unknown _ _⟩
    · subst ha hl
      rcases clientR with e'' | ⟨⟩
      · exact ⟨rfl, printResultLine_unknown _ _⟩
      · rw [guard_run_ok, he]
        exact ⟨rfl, printResultLine_unknown _ _⟩
  · intro argsR clientR fetchR h
    rcases h with ⟨e, he⟩ | ⟨e, he⟩ | ⟨e, he⟩
    · subst he
      exact ⟨rfl, printResultLine_unknown _ _⟩
    · subst he
      rcases argsR with e' | a
      · exact ⟨rfl, printResultLine_unknown _ _⟩
      · exact ⟨rfl, printResultLine_unknown _ _⟩
    · subst he
      rcases argsR with e' | a
      · exact ⟨rfl, printResultLine_unknown _ _⟩
      · rcases clientR with e'' | ⟨⟩
        · exact ⟨rfl, printResultLine_unknown _ _⟩
        · exact ⟨rfl, printResultLine_unknown _ _⟩
  · intro argsR clientR fetchR h
    rcases h with ⟨e, he⟩ | ⟨e, he⟩ | ⟨e, he⟩ | ⟨a, l, e, ha, hl, he⟩
    · subst he
      exact ⟨rfl, printResultLine_unknown _ _⟩
    · subst he
      rcases argsR with e' | a
      · exact ⟨rfl, printResultLine_unknown _ _⟩
      · exact ⟨rfl, printResultLine_unknown _ _⟩
    · subst he
      rcases argsR with e' | a
      · exact ⟨rfl, printResultLine_unknown _ _⟩
      · rcases clientR with e'' | ⟨⟩
        · exact ⟨rfl, printResultLine_unknown _ _⟩
        · exact ⟨rfl, printResultLine_unknown _ _⟩
    · subst ha hl
      rcases clientR with e'' | ⟨⟩
      · exact ⟨rfl, printResultLine_unknown _ _⟩
      · rw [cloudwatch_run_ok, he]
        exact ⟨rfl, printResultLine_unknown _ _⟩

/-- Witness for `error_to_unknown`: a failing fetch stage of the
guardduty probe exits 3 with an UNKNOWN line. -/
theorem error_to_unknown_witness :
    (GuardDuty.run (Except.ok ⟨48, 4, 7⟩) (Except.ok ())
        (Except.error "SourceError")).1 = 3 ∧
    containsUNKNOWN (GuardDuty.run (Except.ok ⟨48, 4, 7⟩) (Except.ok ())
        (Except.error "SourceError")).2 :=
  error_to_unknown.1 (Except.ok ⟨48, 4, 7⟩) (Except.ok ()) (Except.error "SourceError")
    (Or.inr (Or.inr (Or.inl ⟨"SourceError", rfl⟩)))

/-- **C8, divergence.** A completed guardduty run emits its line with the
tag `AWS-BACKUP` — the backups probe's tag, copied verbatim in
`_print_result` (line 179 of `check_aws_guardduty.py`) — not a tag
identifying the guardduty check family; the line shape
`TAG LEVEL - message` and the level's exit code are otherwise as
claimed. -/
theorem guardduty_output_tag :
    GuardDuty.run (.ok ⟨48, 4, 7⟩) (.ok ()) (.ok []) =
      (EXIT_OK.code, "AWS-BACKUP OK - " ++ GuardDuty.result_text ⟨48, 4, 7⟩ 0 0) ∧
    (Backups.run (.ok ⟨24, 0, 0⟩) (.ok ()) (.ok [])).2
      = "AWS-BACKUP OK - " ++ Backups.result_text ⟨24, 0, 0⟩ [] ∧
    (CloudWatch.run (.ok ⟨"m", 80, 90, CloudWatch.Cmp.ge⟩) (.ok ())
        (.ok [⟨85, "Percent"⟩])).2
      = "CLOUDWATCH WARNING - "
          ++ CloudWatch.result_text ⟨"m", 80, 90, CloudWatch.Cmp.ge⟩ ⟨85, "Percent"⟩ := by
  refine ⟨rfl, rfl, ?_⟩
  have h90 : CloudWatch.Cmp.apply CloudWatch.Cmp.ge 85 90 = false := by
    norm_num [CloudWatch.Cmp.apply]
  have h80 : CloudWatch.Cmp.apply CloudWatch.Cmp.ge 85 80 = true := by
    norm_num [CloudWatch.Cmp.apply]
  rw [cloudwatch_run_ok]
  simp only [cloudwatch_analyze_cons, h90, h80, Bool.false_eq_true, if_false, if_true]
  rfl

/-- **C9.** A scalar-metric run whose fetch returns an empty datapoint
sequence fails inside `_analyze_result` (reading `_check_result[0]`
raises `IndexError`), so the run never produces OK, WARNING or
CRITICAL: it ends through the outermost handler with an UNKNOWN line
and exit code 3. -/
theorem cloudwatch_empty_datapoints (args : CloudWatch.Args) :
    CloudWatch.analyze_result args [] = Except.error "IndexError" ∧
    CloudWatch.run (.ok args) (.ok ()) (.ok []) =
      (3, printResultLine "CLOUDWATCH" EXIT_UNKNOWN "Unknown error in main") ∧
    containsUNKNOWN (CloudWatch.run (.ok args) (.ok ()) (.ok [])).2 ∧
    (CloudWatch.run (.ok args) (.ok ()) (.ok [])).1 ≠ EXIT_OK.code ∧
    (CloudWatch.run (.ok args) (.ok ()) (.ok [])).1 ≠ EXIT_WARNING.code ∧
    (CloudWatch.run (.ok args) (.ok ()) (.ok [])).1 ≠ EXIT_CRITICAL.code :=
  ⟨rfl, rfl, printResultLine_unknown _ _,
    (by decide : (3 : Nat) ≠ 0), (by decide : (3 : Nat) ≠ 1), (by decide : (3 : Nat) ≠ 2)⟩

/-- If a non-archived finding whose `_ignore_finding` lookup raises is
anywhere in the input, the whole classification aborts with that or an
earlier error. -/
theorem classify_error_of_poison (w c : Int) (f : GuardDuty.Finding)
    (harch : f.archived = false)
    (hig : ∃ e, GuardDuty.ignore_finding f = .error e) :
    ∀ l : List GuardDuty.Finding, f ∈ l →
      ∀ acc : Nat × Nat, ∃ e, GuardDuty.classify w c acc l = .error e
  | [], h, _ => absurd h (List.not_mem_nil f)
  | g :: t, h, acc => by
    obtain ⟨e0, hig0⟩ := hig
    by_cases hgf : g = f
    · subst hgf
      refine ⟨e0, ?_⟩
      rw [classify_cons]
      simp [harch, hig0]
    · have hft : f ∈ t := by
        rcases List.mem_cons.mp h with h' | h'
        · exact absurd h'.symm hgf
        · exact h'
      have ih := classify_error_of_poison w c f harch ⟨e0, hig0⟩ t hft
      rw [classify_cons]
      by_cases hg : g.archived
      · simpa [hg] using ih acc
      · rcases hgi : GuardDuty.ignore_finding g with e | b
        · exact ⟨e, by simp [hg, hgi]⟩
        · cases b
          · simp only [hg, hgi, Bool.false_eq_true, if_false]
            split
            · exact ih _
            · split
              · exact ih _
              · exact ih _
          · simpa [hg, hgi] using ih acc

/-- **C10.** A non-archived finding of type
`UnauthorizedAccess:EC2/MaliciousIPCaller.Custom` whose nested
`NetworkConnectionAction.ConnectionDirection` keys are missing makes
`_ignore_finding` raise a lookup error instead of returning a boolean,
so classification aborts and the run ends with UNKNOWN and exit code 3;
for findings of any other type the nested fields are never consulted
and the predicate returns false. -/
theorem guardduty_missing_keys (f : GuardDuty.Finding)
    (harch : f.archived = false)
    (hty : f.ftype = "UnauthorizedAccess:EC2/MaliciousIPCaller.Custom")
    (hdir : f.connectionDirection = none) :
    (∃ e, GuardDuty.ignore_finding f = .error e) ∧
    (∀ (args : GuardDuty.Args) (l1 l2 : List GuardDuty.Finding),
      (GuardDuty.run (.ok args) (.ok ()) (.ok (l1 ++ f :: l2))).1 = 3 ∧
      containsUNKNOWN (GuardDuty.run (.ok args) (.ok ()) (.ok (l1 ++ f :: l2))).2) ∧
    (∀ g : GuardDuty.Finding,
      g.ftype ≠ "UnauthorizedAccess:EC2/MaliciousIPCaller.Custom" →
      ∀ dir : Option String,
        GuardDuty.ignore_finding { g with connectionDirection := dir } = .ok false) := by
  have herr : ∃ e, GuardDuty.ignore_finding f = .error e :=
    ⟨"KeyError", by simp [GuardDuty.ignore_finding, hty, hdir]⟩
  refine ⟨herr, ?_, ?_⟩
  · intro args l1 l2
    obtain ⟨e, he⟩ := classify_error_of_poison args.warning args.critical f harch herr
      (l1 ++ f :: l2) (List.mem_append_right l1 (List.mem_cons_self f l2)) (0, 0)
    have hana : GuardDuty.analyze_result args (l1 ++ f :: l2) = .error e := by
      unfold GuardDuty.analyze_result
      rw [he]
      rfl
    rw [guard_run_ok, hana]
    exact ⟨rfl, printResultLine_unknown _ _⟩
  · intro g hg dir
    simp [GuardDuty.ignore_finding, hg]

/-- Witness for `guardduty_missing_keys`: a concrete threat-list finding
with the nested keys absent aborts the run with exit code 3, while a
finding of another type is simply not ignored. -/
theorem guardduty_missing_keys_witness :
    (∃ e, GuardDuty.ignore_finding
      (GuardDuty.Finding.mk "UnauthorizedAccess:EC2/MaliciousIPCaller.Custom" 5 false none)
        = .error e) ∧
    (GuardDuty.run (.ok ⟨48, 4, 7⟩) (.ok ())
      (.ok [GuardDuty.Finding.mk
        "UnauthorizedAccess:EC2/MaliciousIPCaller.Custom" 5 false none])).1 = 3 ∧
    GuardDuty.ignore_finding
      (GuardDuty.Finding.mk "Recon:EC2/PortProbe" 5 false none) = .ok false :=
  ⟨(guardduty_missing_keys _ rfl rfl rfl).1,
    ((guardduty_missing_keys
        (GuardDuty.Finding.mk "UnauthorizedAccess:EC2/MaliciousIPCaller.Custom" 5 false none)
        rfl rfl rfl).2.1 ⟨48, 4, 7⟩ [] []).1,
    (guardduty_missing_keys
        (GuardDuty.Finding.mk "UnauthorizedAccess:EC2/MaliciousIPCaller.Custom" 5 false none)
        rfl rfl rfl).2.2
      (GuardDuty.Finding.mk "Recon:EC2/PortProbe" 5 false none) (by decide) none⟩
